import Mathlib

/-!
Shallow embedding of `scripts/run_question_coding.py` (question coding for
CLEVR programs and questions) and verification of claims about it.

Tensors of per-example losses are modelled as `List ℚ`; token-id tensors as
`List (List Nat)` (a batch of sequences).  The neural models
(`ProgramPrior`, `ProgramGenerator`, `QuestionReconstructor`) are opaque
collaborators: each is a record carrying its `training` flag (the
`nn.Module` mode), its parameter vector, and abstract forward / greedy-decode
functions of the parameters.  Fallible steps (`next()` on an exhausted
iterator, attribute access on a `None` optimizer) are modelled in
`Except RunError`.
-/

set_option autoImplicit false

namespace QuestionCoding

/-- Output dict of one forward pass: keys `"predictions"` and `"loss"`
(per-example loss vector). -/
structure ForwardOutput where
  predictions : List (List Nat)
  loss : List ℚ
deriving DecidableEq, Repr

/-- An opaque sequence model (`ProgramPrior`, `ProgramGenerator` or
`QuestionReconstructor`): the `nn.Module` training flag, the parameter
vector, and abstract forward / greedy-decode behaviour as functions of the
parameters. -/
structure SeqModel where
  training : Bool
  params : List ℚ
  forward : List ℚ → List (List Nat) → List (List Nat) → ForwardOutput
  greedy : List ℚ → List (List Nat) → List (List Nat)

/-- One batch from a `QuestionCodingDataset` dataloader: keys `"question"`,
`"program"`, `"supervision"` (the 0/1 program-supervision indicator). -/
structure Batch where
  question : List (List Nat)
  program : List (List Nat)
  supervision : List Bool
deriving DecidableEq, Repr

/-- The relevant keys of the solver config (`configs/question_coding.yml`). -/
structure Config where
  ssl_alpha : ℚ
  num_iterations : Nat
  initial_bs : Nat
  bs_gamma : Nat
  bs_steps : List Nat
  initial_lr : ℚ
  lr_gamma : ℚ
  lr_steps : List Nat
  prior_checkpoint : List ℚ

/-- `torch.mean` of a vector of per-example losses. -/
def torchMean (v : List ℚ) : ℚ := v.sum / (v.length : ℚ)

/-- The `eps` default of `allennlp.nn.util.masked_mean`. -/
def maskedMeanEps : ℚ := 1 / 100000000

/-- `allennlp.nn.util.masked_mean(vector, mask, dim=0)`: entries where the
mask is off are replaced by zero, the sum is divided by the mask count
clamped below by `eps`. -/
def masked_mean (vector : List ℚ) (mask : List Bool) : ℚ :=
  let replaced := List.zipWith (fun a m => if m then a else (0 : ℚ)) vector mask
  let valueSum := replaced.sum
  let valueCount : ℚ := (mask.countP (fun b => b) : ℚ)
  valueSum / max valueCount maskedMeanEps

/-- The `Adam` optimizer of the script is constructed over
`itertools.chain(program_generator.parameters(), question_reconstructor.parameters())`
(and nothing else), so a `step` maps those two parameter vectors to their
updated values; the concrete update is abstract. -/
structure Optimizer where
  step : List ℚ → List ℚ → List ℚ × List ℚ

/-- Runtime errors the script can raise in the modelled fragment:
dereferencing the `None` optimizer, and `next()` on a cycle of an empty
loader. -/
inductive RunError where
  | noneOptimizer
  | stopIteration
deriving DecidableEq, Repr

/-- The `"loss"` sub-dict returned by `do_iteration`, with its literal keys
`"reconstruction"`, `"supervision"`, `"objective"`. -/
structure LossDict where
  reconstruction : ℚ
  supervision : ℚ
  objective : ℚ
deriving DecidableEq, Repr

/-- The `"predictions"` sub-dict returned by `do_iteration` (keys `"__pg"`,
`"__qr"`). -/
structure PredictionsDict where
  pg : List (List Nat)
  qr : List (List Nat)
deriving DecidableEq, Repr

/-- The dict returned by `do_iteration`. -/
structure IterOutput where
  predictions : PredictionsDict
  loss : LossDict
deriving DecidableEq, Repr

/-- `do_iteration(config, batch, program_prior, program_generator,
question_reconstructor, optimizer=None)`, translated line by line.  Python
mutates the models through `optimizer.step()`; here the (possibly updated)
generator and reconstructor are returned alongside the output dict.  The
`program_prior` argument is part of the signature exactly as in the source;
the body never reads it. -/
def do_iteration (config : Config) (batch : Batch)
    (program_prior : Option SeqModel)
    (program_generator : SeqModel) (question_reconstructor : SeqModel)
    (optimizer : Option Optimizer) :
    Except RunError (IterOutput × SeqModel × SeqModel) :=
  -- if program_generator.training: optimizer.zero_grad()
  if program_generator.training && optimizer.isNone then
    Except.error RunError.noneOptimizer
  else
    let pgOutputDict :=
      program_generator.forward program_generator.params batch.question batch.program
    let sampledPrograms :=
      program_generator.greedy program_generator.params batch.question
    let qrOutputDict :=
      question_reconstructor.forward question_reconstructor.params
        sampledPrograms batch.question
    let qrBatchLoss := torchMean qrOutputDict.loss
    -- Zero out loss contribution from examples having no program supervision.
    let pgBatchLoss := masked_mean pgOutputDict.loss batch.supervision
    -- loss_objective = qr_batch_loss + config["ssl_alpha"] * pg_batch_loss
    let lossObjective := qrBatchLoss + config.ssl_alpha * pgBatchLoss
    let output : IterOutput :=
      { predictions := { pg := pgOutputDict.predictions, qr := qrOutputDict.predictions }
        loss := { reconstruction := pgBatchLoss
                  supervision := qrBatchLoss
                  objective := lossObjective } }
    if program_generator.training && question_reconstructor.training then
      match optimizer with
      | none => Except.error RunError.noneOptimizer
      | some opt =>
          let updated := opt.step program_generator.params question_reconstructor.params
          Except.ok (output,
            { program_generator with params := updated.1 },
            { question_reconstructor with params := updated.2 })
    else
      Except.ok (output, program_generator, question_reconstructor)

/-- Projection of a `do_iteration` result onto its output dict (with a junk
default on the error branch, used only to state concrete evaluations). -/
def extractOut (r : Except RunError (IterOutput × SeqModel × SeqModel)) : IterOutput :=
  match r with
  | Except.ok (o, _, _) => o
  | Except.error _ =>
      { predictions := { pg := [], qr := [] }
        loss := { reconstruction := 0, supervision := 0, objective := 0 } }

/-- Where one of the two `do_iteration` call sites sits: the per-iteration
training call (line 186) or a call of the cross-validation block (line 213). -/
inductive CallSite where
  | train
  | val
deriving DecidableEq, Repr

/-- A record of one `do_iteration` call: the call site, the `training` flags
of the generator and the reconstructor at call time, and whether a program
prior / an optimizer was passed (rather than `None`). -/
structure CallEvent where
  site : CallSite
  pgMode : Bool
  qrMode : Bool
  priorArg : Bool
  optArg : Bool
deriving DecidableEq, Repr

/-- The record every validation call of the script produces: both models in
evaluation mode, no prior and no optimizer passed. -/
def valEvent : CallEvent :=
  { site := CallSite.val, pgMode := false, qrMode := false,
    priorArg := false, optArg := false }

/-- State of one `CheckpointManager`: the metric values it has been
`step`ped with, and whether `save_best` has been called. -/
structure CkptManager where
  steppedMetrics : List ℚ
  savedBest : Bool

/-- The ambient collaborators of the `__main__` block that the framework
supplies: the training dataloader contents as a function of the batch size
(dataset, sampler and `DataLoader` are opaque), the validation dataloader
contents, the abstract behaviour functions and initial parameters of the
three models, `get_metrics()["perplexity"]` as a function of a model, and
the abstract Adam update. -/
structure Env where
  trainBatches : Nat → List Batch
  valBatches : List Batch
  priorForward : List ℚ → List (List Nat) → List (List Nat) → ForwardOutput
  priorGreedy : List ℚ → List (List Nat) → List (List Nat)
  pgForward : List ℚ → List (List Nat) → List (List Nat) → ForwardOutput
  pgGreedy : List ℚ → List (List Nat) → List (List Nat)
  qrForward : List ℚ → List (List Nat) → List (List Nat) → ForwardOutput
  qrGreedy : List ℚ → List (List Nat) → List (List Nat)
  pgInitParams : List ℚ
  qrInitParams : List ℚ
  perplexityOf : SeqModel → ℚ
  optStep : List ℚ → List ℚ → List ℚ × List ℚ

/-- `torch.optim.lr_scheduler.MultiStepLR`: after `epoch` calls of `step()`,
the learning rate is `initial_lr * lr_gamma ** #(milestones ≤ epoch)`. -/
def multiStepLR (config : Config) (epoch : Nat) : ℚ :=
  config.initial_lr * config.lr_gamma ^ (config.lr_steps.countP (fun m => m ≤ epoch))

/-- Mutable state of the `__main__` training loop. -/
structure LoopState where
  program_prior : SeqModel
  program_generator : SeqModel
  question_reconstructor : SeqModel
  batch_size : Nat
  loaderBatches : List Batch
  loaderPos : Nat
  lrEpoch : Nat
  lr : ℚ
  pgCkpt : CkptManager
  qrCkpt : CkptManager

/-- `next()` on `itertools.cycle(dataloader)`: the batches repeat forever;
on an empty underlying loader the first `next()` raises `StopIteration`. -/
def cyclicNext (l : List Batch) (pos : Nat) : Except RunError Batch :=
  match l with
  | [] => Except.error RunError.stopIteration
  | b :: bs => Except.ok ((b :: bs).getD (pos % (b :: bs).length) b)

/-- The validation loop (lines 209–215): one `do_iteration` per validation
batch, with `program_prior=None` and no optimizer, under `torch.no_grad()`.
Returns the threaded models and the record of the calls made. -/
def valLoop (config : Config) :
    List Batch → SeqModel → SeqModel →
    Except RunError (SeqModel × SeqModel × List CallEvent)
  | [], pg, qr => Except.ok (pg, qr, [])
  | b :: rest, pg, qr =>
    match do_iteration config b none pg qr none with
    | Except.error e => Except.error e
    | Except.ok (_, pg1, qr1) =>
      match valLoop config rest pg1 qr1 with
      | Except.error e => Except.error e
      | Except.ok (pg2, qr2, evs) =>
        Except.ok (pg2, qr2,
          ({ site := CallSite.val, pgMode := pg.training, qrMode := qr.training,
             priorArg := false, optArg := false } : CallEvent) :: evs)

/-- The training-call phase of one loop iteration (lines 182–195): draw the
next cyclic batch, run `do_iteration` with `program_prior=None` and the
optimizer, and step the lr scheduler.  Returns the updated state and the
record of the training call. -/
def trainPart (config : Config) (optimizer : Optimizer)
    (s : LoopState) : Except RunError (LoopState × CallEvent) :=
  match cyclicNext s.loaderBatches s.loaderPos with
  | Except.error e => Except.error e
  | Except.ok batch =>
    match do_iteration config batch none s.program_generator s.question_reconstructor
        (some optimizer) with
    | Except.error e => Except.error e
    | Except.ok (_, pg1, qr1) =>
      -- lr_scheduler.step()
      Except.ok
        ({ s with program_generator := pg1, question_reconstructor := qr1,
                  loaderPos := s.loaderPos + 1,
                  lrEpoch := s.lrEpoch + 1, lr := multiStepLR config (s.lrEpoch + 1) },
         { site := CallSite.train, pgMode := s.program_generator.training,
           qrMode := s.question_reconstructor.training, priorArg := false,
           optArg := true })

/-- Batch-size scheduling (lines 196–200): at the `bs_steps` milestones the
batch size is multiplied by `bs_gamma` and the cyclic loader re-initialized;
otherwise nothing happens. -/
def bsSched (config : Config) (env : Env) (iteration : Nat) (s : LoopState) :
    LoopState :=
  if iteration ∈ config.bs_steps then
    { s with batch_size := s.batch_size * config.bs_gamma,
             loaderBatches := env.trainBatches (s.batch_size * config.bs_gamma),
             loaderPos := 0 }
  else s

/-- The validation block (lines 205–267): on iterations divisible by
`checkpoint_every`, switch both models to evaluation mode, run the
validation loop, step both checkpoint managers with the respective
perplexity metrics, and switch both models back to training mode. -/
def valBlock (config : Config) (checkpoint_every : Nat) (env : Env)
    (iteration : Nat) (s : LoopState) :
    Except RunError (LoopState × List CallEvent) :=
  if iteration % checkpoint_every == 0 then
    match valLoop config env.valBatches
        { s.program_generator with training := false }
        { s.question_reconstructor with training := false } with
    | Except.error e => Except.error e
    | Except.ok (pgV, qrV, valEvs) =>
      Except.ok
        ({ s with
             program_generator := { pgV with training := true },
             question_reconstructor := { qrV with training := true },
             pgCkpt := { steppedMetrics :=
                           s.pgCkpt.steppedMetrics ++ [env.perplexityOf pgV],
                         savedBest := s.pgCkpt.savedBest },
             qrCkpt := { steppedMetrics :=
                           s.qrCkpt.steppedMetrics ++ [env.perplexityOf qrV],
                         savedBest := s.qrCkpt.savedBest } },
         valEvs)
  else
    Except.ok (s, [])

/-- The body of one iteration of the training loop (lines 181–267): the
training call, then batch-size scheduling, then the validation block. -/
def iterStep (config : Config) (checkpoint_every : Nat) (env : Env)
    (optimizer : Optimizer) (iteration : Nat) (s : LoopState) :
    Except RunError (LoopState × List CallEvent) :=
  match trainPart config optimizer s with
  | Except.error e => Except.error e
  | Except.ok (s1, trainEv) =>
    match valBlock config checkpoint_every env iteration
        (bsSched config env iteration s1) with
    | Except.error e => Except.error e
    | Except.ok (s2, valEvs) => Except.ok (s2, trainEv :: valEvs)

/-- Iterations `i, i+1, ..., i+n-1` of the training loop. -/
def runFrom (config : Config) (checkpoint_every : Nat) (env : Env)
    (optimizer : Optimizer) :
    Nat → Nat → LoopState → Except RunError (LoopState × List CallEvent)
  | _, 0, s => Except.ok (s, [])
  | i, n + 1, s =>
    match iterStep config checkpoint_every env optimizer i s with
    | Except.error e => Except.error e
    | Except.ok (s1, evs) =>
      match runFrom config checkpoint_every env optimizer (i + 1) n s1 with
      | Except.error e => Except.error e
      | Except.ok (s2, evs2) => Except.ok (s2, evs ++ evs2)

/-- The setup section of `__main__` (lines 107–178): the prior is built,
loaded from `config["prior_checkpoint"]` and put in eval mode; the generator
and reconstructor are freshly built (so in training mode, the `nn.Module`
default); the loader starts at `config["initial_bs"]`; the `MultiStepLR`
scheduler starts at epoch 0; both checkpoint managers start empty. -/
def setup (config : Config) (env : Env) : LoopState :=
  { program_prior :=
      { training := false, params := config.prior_checkpoint,
        forward := env.priorForward, greedy := env.priorGreedy }
    program_generator :=
      { training := true, params := env.pgInitParams,
        forward := env.pgForward, greedy := env.pgGreedy }
    question_reconstructor :=
      { training := true, params := env.qrInitParams,
        forward := env.qrForward, greedy := env.qrGreedy }
    batch_size := config.initial_bs
    loaderBatches := env.trainBatches config.initial_bs
    loaderPos := 0
    lrEpoch := 0
    lr := multiStepLR config 0
    pgCkpt := { steppedMetrics := [], savedBest := false }
    qrCkpt := { steppedMetrics := [], savedBest := false } }

/-- The whole `__main__` run: setup, iterations `1 .. num_iterations`,
then `save_best()` on both checkpoint managers. -/
def runMain (config : Config) (checkpoint_every : Nat) (env : Env) :
    Except RunError (LoopState × List CallEvent) :=
  match runFrom config checkpoint_every env { step := env.optStep } 1
      config.num_iterations (setup config env) with
  | Except.error e => Except.error e
  | Except.ok (s, evs) =>
    Except.ok ({ s with pgCkpt := { s.pgCkpt with savedBest := true },
                        qrCkpt := { s.qrCkpt with savedBest := true } }, evs)

/-- `true` exactly when a run raised the `None`-optimizer dereference error. -/
def raisedNoneOptimizer (r : Except RunError (LoopState × List CallEvent)) : Bool :=
  match r with
  | Except.error RunError.noneOptimizer => true
  | _ => false

/-- Projection of a run result onto its final state (junk-free fallback used
only to state concrete evaluations). -/
def extractState (r : Except RunError (LoopState × List CallEvent))
    (fallback : LoopState) : LoopState :=
  match r with
  | Except.ok (s, _) => s
  | Except.error _ => fallback

/-- Projection of a run result onto its call events. -/
def extractEvents (r : Except RunError (LoopState × List CallEvent)) :
    List CallEvent :=
  match r with
  | Except.ok (_, evs) => evs
  | Except.error _ => []

/-! ### Concrete fixtures used by witnesses and counterexamples -/

/-- A concrete generator forward: per-example loss vector `[2]`. -/
def pgForwardX : List ℚ → List (List Nat) → List (List Nat) → ForwardOutput :=
  fun _ _ _ => { predictions := [[3]], loss := [2] }

/-- A concrete reconstructor forward: per-example loss vector `[1]`. -/
def qrForwardX : List ℚ → List (List Nat) → List (List Nat) → ForwardOutput :=
  fun _ _ _ => { predictions := [[4]], loss := [1] }

/-- A concrete greedy decode. -/
def greedyX : List ℚ → List (List Nat) → List (List Nat) := fun _ q => q

/-- A concrete generator in evaluation mode. -/
def pgX : SeqModel :=
  { training := false, params := [0], forward := pgForwardX, greedy := greedyX }

/-- A concrete reconstructor in evaluation mode. -/
def qrX : SeqModel :=
  { training := false, params := [0], forward := qrForwardX, greedy := greedyX }

/-- A concrete prior model. -/
def priorX : SeqModel :=
  { training := false, params := [5], forward := pgForwardX, greedy := greedyX }

/-- A concrete fully-supervised one-example batch. -/
def batchX : Batch := { question := [[1]], program := [[2]], supervision := [true] }

/-- A concrete config: `ssl_alpha = 3`, one training iteration, lr halved at
milestone 1. -/
def cfgX : Config :=
  { ssl_alpha := 3, num_iterations := 1, initial_bs := 2, bs_gamma := 2,
    bs_steps := [], initial_lr := 1, lr_gamma := 1 / 2, lr_steps := [1],
    prior_checkpoint := [5] }

/-- The output dict of `do_iteration` on the concrete fixture. -/
def doIterOutX : IterOutput := extractOut (do_iteration cfgX batchX none pgX qrX none)

/-- A concrete config whose `bs_steps` contains iteration 1. -/
def cfgB : Config := { cfgX with bs_steps := [1] }

/-- A concrete environment: one training batch at every batch size, one
validation batch, perplexity read off the head of the parameter vector. -/
def envW : Env :=
  { trainBatches := fun _ => [batchX]
    valBatches := [batchX]
    priorForward := pgForwardX, priorGreedy := greedyX
    pgForward := pgForwardX, pgGreedy := greedyX
    qrForward := qrForwardX, qrGreedy := greedyX
    pgInitParams := [0], qrInitParams := [0]
    perplexityOf := fun m => m.params.headD 0
    optStep := fun p q => (p, q) }

/-- A concrete optimizer. -/
def optW : Optimizer := { step := fun p q => (p, q) }

/-- Final state of the concrete run (`checkpoint_every = 1`). -/
def stateW : LoopState := extractState (runMain cfgX 1 envW) (setup cfgX envW)

/-- Call events of the concrete run. -/
def eventsW : List CallEvent := extractEvents (runMain cfgX 1 envW)

/-- State after one concrete `iterStep` with `checkpoint_every = 1`. -/
def iterStateW : LoopState :=
  extractState (iterStep cfgX 1 envW optW 1 (setup cfgX envW)) (setup cfgX envW)

/-- State after one concrete `iterStep` with `checkpoint_every = 2` (no
validation at iteration 1). -/
def iterStateW2 : LoopState :=
  extractState (iterStep cfgX 2 envW optW 1 (setup cfgX envW)) (setup cfgX envW)

/-- State after one concrete `iterStep` under `cfgB` (batch-size milestone at
iteration 1, no validation). -/
def iterStateWB : LoopState :=
  extractState (iterStep cfgB 2 envW optW 1 (setup cfgB envW)) (setup cfgB envW)

/-- Events of the concrete `iterStep` with `checkpoint_every = 1`. -/
def iterEventsW : List CallEvent :=
  extractEvents (iterStep cfgX 1 envW optW 1 (setup cfgX envW))

/-- Events of the concrete `iterStep` with `checkpoint_every = 2`. -/
def iterEventsW2 : List CallEvent :=
  extractEvents (iterStep cfgX 2 envW optW 1 (setup cfgX envW))

/-- Events of the concrete `iterStep` under `cfgB`. -/
def iterEventsWB : List CallEvent :=
  extractEvents (iterStep cfgB 2 envW optW 1 (setup cfgB envW))

/-! ### Lemmas about `do_iteration` -/

/-- Inversion: a successful `do_iteration` returns exactly the output dict
built from the two forward passes, and leaves the training flags of both
models unchanged. -/
theorem do_iteration_ok_out {config : Config} {batch : Batch}
    {prior : Option SeqModel} {pg qr : SeqModel} {opt : Option Optimizer}
    {out : IterOutput} {pg' qr' : SeqModel}
    (h : do_iteration config batch prior pg qr opt = Except.ok (out, pg', qr')) :
    out =
      { predictions :=
          { pg := (pg.forward pg.params batch.question batch.program).predictions
            qr := (qr.forward qr.params (pg.greedy pg.params batch.question)
                    batch.question).predictions }
        loss :=
          { reconstruction :=
              masked_mean (pg.forward pg.params batch.question batch.program).loss
                batch.supervision
            supervision :=
              torchMean (qr.forward qr.params (pg.greedy pg.params batch.question)
                batch.question).loss
            objective :=
              torchMean (qr.forward qr.params (pg.greedy pg.params batch.question)
                batch.question).loss
              + config.ssl_alpha *
                masked_mean (pg.forward pg.params batch.question batch.program).loss
                  batch.supervision } }
    ∧ pg'.training = pg.training ∧ qr'.training = qr.training := by
  simp only [do_iteration] at h
  split at h
  · simp at h
  · split at h
    · split at h
      · simp at h
      · cases h
        exact ⟨rfl, rfl, rfl⟩
    · cases h
      exact ⟨rfl, rfl, rfl⟩

/-- A `do_iteration` call that is passed an optimizer never fails. -/
theorem do_iteration_some_ok (config : Config) (batch : Batch)
    (prior : Option SeqModel) (pg qr : SeqModel) (opt : Optimizer) :
    ∃ out pg' qr',
      do_iteration config batch prior pg qr (some opt) = Except.ok (out, pg', qr') := by
  simp only [do_iteration, Option.isNone_some, Bool.and_false, Bool.false_eq_true,
    if_false]
  split
  · exact ⟨_, _, _, rfl⟩
  · exact ⟨_, _, _, rfl⟩

/-- A `do_iteration` call on a generator in evaluation mode never fails and
returns both models unchanged (no optimizer branch runs). -/
theorem do_iteration_eval (config : Config) (batch : Batch)
    (prior : Option SeqModel) (pg qr : SeqModel) (opt : Option Optimizer)
    (hpg : pg.training = false) :
    ∃ out, do_iteration config batch prior pg qr opt = Except.ok (out, pg, qr) := by
  simp only [do_iteration, hpg, Bool.false_and, Bool.false_eq_true, if_false]
  exact ⟨_, rfl⟩

/-- Replacing an entry of the loss vector at a position where the mask is
off does not change the masked-fill step. -/
theorem zipWith_maskFill_set (v : List ℚ) (mask : List Bool) (i : Nat) (x : ℚ)
    (h : mask.getD i false = false) :
    List.zipWith (fun a m => if m then a else (0 : ℚ)) (v.set i x) mask
      = List.zipWith (fun a m => if m then a else (0 : ℚ)) v mask := by
  induction v generalizing mask i with
  | nil => simp
  | cons a v ih =>
    cases mask with
    | nil => simp
    | cons m ms =>
      cases i with
      | zero =>
        simp only [List.getD_cons_zero] at h
        subst h
        simp
      | succ j =>
        simp only [List.getD_cons_succ] at h
        simp only [List.set_cons_succ, List.zipWith_cons_cons]
        rw [ih ms j h]

/-! ### Claims C1, C2, C3, C6 -/

/-- Claim C1 (amended): the `program_prior` argument does not participate in
the computation of `do_iteration` — the result is the same whatever prior
(or `None`) is passed. -/
theorem C1_prior_not_used_in_do_iteration :
    ∀ (config : Config) (batch : Batch) (p1 p2 : Option SeqModel)
      (pg qr : SeqModel) (opt : Option Optimizer),
      do_iteration config batch p1 pg qr opt = do_iteration config batch p2 pg qr opt :=
  fun _ _ _ _ _ _ _ => rfl

/-- Counterexample to claim C1 as stated: at a concrete batch, running
`do_iteration` with the loaded prior gives exactly the same result as running
it with `None` (which is what the training loop passes at line 187), so the
prior does not participate in the computation. -/
theorem C1_counterexample :
    do_iteration cfgX batchX (some priorX) pgX qrX none
      = do_iteration cfgX batchX none pgX qrX none := rfl

/-- Claim C2: in the returned dict, the `"reconstruction"` key holds the
masked-mean program-generator loss and the `"supervision"` key holds the mean
question-reconstructor loss — the labels are swapped relative to the
quantities they name, for every batch and config. -/
theorem C2_loss_keys_swapped :
    ∀ (config : Config) (batch : Batch) (prior : Option SeqModel)
      (pg qr : SeqModel) (opt : Option Optimizer)
      (out : IterOutput) (pg' qr' : SeqModel),
      do_iteration config batch prior pg qr opt = Except.ok (out, pg', qr') →
      out.loss.reconstruction
          = masked_mean (pg.forward pg.params batch.question batch.program).loss
              batch.supervision
      ∧ out.loss.supervision
          = torchMean (qr.forward qr.params (pg.greedy pg.params batch.question)
              batch.question).loss := by
  intro config batch prior pg qr opt out pg' qr' h
  obtain ⟨ho, -, -⟩ := do_iteration_ok_out h
  rw [ho]
  exact ⟨rfl, rfl⟩

/-- Witness for C2 at the concrete fixture. -/
theorem C2_witness :
    doIterOutX.loss.reconstruction
        = masked_mean (pgX.forward pgX.params batchX.question batchX.program).loss
            batchX.supervision
    ∧ doIterOutX.loss.supervision
        = torchMean (qrX.forward qrX.params (pgX.greedy pgX.params batchX.question)
            batchX.question).loss :=
  C2_loss_keys_swapped cfgX batchX none pgX qrX none doIterOutX pgX qrX rfl

/-- Claim C3: the program-generator loss enters the objective as the
supervision-masked mean, and an example whose supervision indicator is off
contributes zero — changing its per-example loss never changes the
aggregated value. -/
theorem C3_masked_supervision_loss :
    (∀ (config : Config) (batch : Batch) (prior : Option SeqModel)
       (pg qr : SeqModel) (opt : Option Optimizer)
       (out : IterOutput) (pg' qr' : SeqModel),
       do_iteration config batch prior pg qr opt = Except.ok (out, pg', qr') →
       out.loss.objective
         = torchMean (qr.forward qr.params (pg.greedy pg.params batch.question)
             batch.question).loss
           + config.ssl_alpha *
             masked_mean (pg.forward pg.params batch.question batch.program).loss
               batch.supervision)
  ∧ (∀ (v : List ℚ) (mask : List Bool) (i : Nat) (x : ℚ),
       mask.getD i false = false →
       masked_mean (v.set i x) mask = masked_mean v mask) := by
  constructor
  · intro config batch prior pg qr opt out pg' qr' h
    obtain ⟨ho, -, -⟩ := do_iteration_ok_out h
    rw [ho]
  · intro v mask i x h
    unfold masked_mean
    rw [zipWith_maskFill_set v mask i x h]

/-- Witness for C3: the objective formula at the concrete fixture, and the
masked mean of `[2, 9]` under mask `[true, false]` unchanged when the
unsupervised entry is rewritten to `100`. -/
theorem C3_witness :
    (doIterOutX.loss.objective
       = torchMean (qrX.forward qrX.params (pgX.greedy pgX.params batchX.question)
           batchX.question).loss
         + cfgX.ssl_alpha *
           masked_mean (pgX.forward pgX.params batchX.question batchX.program).loss
             batchX.supervision)
    ∧ masked_mean (([2, 9] : List ℚ).set 1 100) [true, false]
        = masked_mean [2, 9] [true, false] :=
  ⟨C3_masked_supervision_loss.1 cfgX batchX none pgX qrX none doIterOutX pgX qrX rfl,
   C3_masked_supervision_loss.2 [2, 9] [true, false] 1 100 (by decide)⟩

/-- Counterexample to claim C6 as stated: at a concrete batch the single
optimized objective is `7`, while the reconstruction part alone is `1` and
the weighted supervision part alone is `6` — both losses enter the same
iteration's objective, which equals their sum; nothing alternates. -/
theorem C6_counterexample :
    doIterOutX.loss.objective = 7
  ∧ doIterOutX.loss.supervision = 1
  ∧ cfgX.ssl_alpha * doIterOutX.loss.reconstruction = 6
  ∧ doIterOutX.loss.objective
      = doIterOutX.loss.supervision + cfgX.ssl_alpha * doIterOutX.loss.reconstruction := by
  have hr : doIterOutX.loss.reconstruction = masked_mean [2] [true] := rfl
  have hs : doIterOutX.loss.supervision = torchMean [1] := rfl
  have ho : doIterOutX.loss.objective
      = torchMean [1] + cfgX.ssl_alpha * masked_mean [2] [true] := rfl
  have halpha : cfgX.ssl_alpha = 3 := rfl
  have hm : masked_mean [2] [true] = 2 := by
    simp [masked_mean, maskedMeanEps]
    norm_num
  have ht : torchMean [1] = 1 := by simp [torchMean]
  refine ⟨?_, ?_, ?_, ?_⟩
  · rw [ho, ht, hm, halpha]; norm_num
  · rw [hs, ht]
  · rw [hr, hm, halpha]; norm_num
  · rw [ho, hs, hr]

/-- Claim C6 (amended): every iteration optimizes the single joint objective
`reconstruction-term + ssl_alpha * supervision-term` — the sum of both
losses, not an alternation between them. -/
theorem C6_joint_objective :
    ∀ (config : Config) (batch : Batch) (prior : Option SeqModel)
      (pg qr : SeqModel) (opt : Option Optimizer)
      (out : IterOutput) (pg' qr' : SeqModel),
      do_iteration config batch prior pg qr opt = Except.ok (out, pg', qr') →
      out.loss.objective
        = out.loss.supervision + config.ssl_alpha * out.loss.reconstruction := by
  intro config batch prior pg qr opt out pg' qr' h
  obtain ⟨ho, -, -⟩ := do_iteration_ok_out h
  rw [ho]

/-- Witness for C6 (amended) at the concrete fixture. -/
theorem C6_witness :
    doIterOutX.loss.objective
      = doIterOutX.loss.supervision + cfgX.ssl_alpha * doIterOutX.loss.reconstruction :=
  C6_joint_objective cfgX batchX none pgX qrX none doIterOutX pgX qrX rfl

/-! ### Lemmas about the training loop -/

/-- An error of `cyclicNext` is always `StopIteration`. -/
theorem cyclicNext_error {l : List Batch} {pos : Nat} {e : RunError}
    (h : cyclicNext l pos = Except.error e) : e = RunError.stopIteration := by
  cases l with
  | nil =>
    simp only [cyclicNext] at h
    injection h with h
    exact h.symm
  | cons b bs => simp [cyclicNext] at h

/-- `cyclicNext` succeeds on a non-empty loader. -/
theorem cyclicNext_ok (l : List Batch) (pos : Nat) (hl : l ≠ []) :
    ∃ b, cyclicNext l pos = Except.ok b := by
  cases l with
  | nil => exact absurd rfl hl
  | cons b bs => exact ⟨_, rfl⟩

/-- The validation loop on models in evaluation mode succeeds, returns both
models unchanged, and records one eval-mode optimizer-free call per
validation batch. -/
theorem valLoop_eval (config : Config) (batches : List Batch) (pg qr : SeqModel)
    (hpg : pg.training = false) (hqr : qr.training = false) :
    valLoop config batches pg qr
      = Except.ok (pg, qr, List.replicate batches.length valEvent) := by
  induction batches with
  | nil => rfl
  | cons b rest ih =>
    obtain ⟨out, hout⟩ := do_iteration_eval config b none pg qr none hpg
    simp only [valLoop, hout, ih, List.length_cons, List.replicate_succ, hpg, hqr,
      valEvent]

/-- A `do_iteration` call that is passed an optimizer never raises. -/
theorem do_iteration_some_no_error (config : Config) (batch : Batch)
    (prior : Option SeqModel) (pg qr : SeqModel) (opt : Optimizer) (e : RunError)
    (h : do_iteration config batch prior pg qr (some opt) = Except.error e) :
    False := by
  obtain ⟨out, pg', qr', hok⟩ := do_iteration_some_ok config batch prior pg qr opt
  rw [hok] at h
  simp at h

/-- Inversion for the training-call phase: the prior, the training flags,
the batch size, the loader contents and both checkpoint managers are
untouched; the lr scheduler is stepped exactly once; the recorded call is a
train-site call with the entry modes, no prior and an optimizer. -/
theorem trainPart_inv {config : Config} {opt : Optimizer} {s s1 : LoopState}
    {ev : CallEvent} (h : trainPart config opt s = Except.ok (s1, ev)) :
    s1.program_prior = s.program_prior
  ∧ s1.program_generator.training = s.program_generator.training
  ∧ s1.question_reconstructor.training = s.question_reconstructor.training
  ∧ s1.batch_size = s.batch_size
  ∧ s1.loaderBatches = s.loaderBatches
  ∧ s1.lrEpoch = s.lrEpoch + 1
  ∧ s1.lr = multiStepLR config (s.lrEpoch + 1)
  ∧ s1.pgCkpt = s.pgCkpt
  ∧ s1.qrCkpt = s.qrCkpt
  ∧ ev = { site := CallSite.train, pgMode := s.program_generator.training,
           qrMode := s.question_reconstructor.training, priorArg := false,
           optArg := true } := by
  unfold trainPart at h
  split at h
  · simp at h
  · split at h
    · simp at h
    · rename_i heq
      obtain ⟨-, hpg, hqr⟩ := do_iteration_ok_out heq
      cases h
      exact ⟨rfl, hpg, hqr, rfl, rfl, rfl, rfl, rfl, rfl, rfl⟩

/-- An error of the training-call phase is always `StopIteration`: the
training call always passes an optimizer, so the `None`-optimizer error can
only come from an empty loader's `next()`. -/
theorem trainPart_error {config : Config} {opt : Optimizer} {s : LoopState}
    {e : RunError} (h : trainPart config opt s = Except.error e) :
    e = RunError.stopIteration := by
  unfold trainPart at h
  split at h
  · rename_i heq
    injection h with h
    exact h ▸ cyclicNext_error heq
  · split at h
    · rename_i hcn heq
      exact (do_iteration_some_no_error _ _ _ _ _ _ _ heq).elim
    · simp at h

/-- The training-call phase succeeds whenever the loader is non-empty. -/
theorem trainPart_ok (config : Config) (opt : Optimizer) (s : LoopState)
    (hload : s.loaderBatches ≠ []) :
    ∃ s1 ev, trainPart config opt s = Except.ok (s1, ev) := by
  obtain ⟨b, hb⟩ := cyclicNext_ok s.loaderBatches s.loaderPos hload
  obtain ⟨out, pg', qr', hdo⟩ :=
    do_iteration_some_ok config b none s.program_generator
      s.question_reconstructor opt
  simp only [trainPart, hb, hdo]
  exact ⟨_, _, rfl⟩

/-- At a `bs_steps` milestone, `bsSched` multiplies the batch size by
`bs_gamma` and re-initializes the cyclic loader. -/
theorem bsSched_mem {config : Config} {env : Env} {i : Nat} {s : LoopState}
    (hmem : i ∈ config.bs_steps) :
    (bsSched config env i s).batch_size = s.batch_size * config.bs_gamma
  ∧ (bsSched config env i s).loaderBatches
      = env.trainBatches (s.batch_size * config.bs_gamma)
  ∧ (bsSched config env i s).loaderPos = 0 := by
  unfold bsSched
  rw [if_pos hmem]
  exact ⟨rfl, rfl, rfl⟩

/-- Away from the `bs_steps` milestones, `bsSched` does nothing. -/
theorem bsSched_not_mem (config : Config) (env : Env) (i : Nat) (s : LoopState)
    (hmem : i ∉ config.bs_steps) : bsSched config env i s = s := by
  unfold bsSched
  rw [if_neg hmem]

/-- `bsSched` only ever touches the batch size and the loader. -/
theorem bsSched_frame (config : Config) (env : Env) (i : Nat) (s : LoopState) :
    (bsSched config env i s).program_prior = s.program_prior
  ∧ (bsSched config env i s).program_generator = s.program_generator
  ∧ (bsSched config env i s).question_reconstructor = s.question_reconstructor
  ∧ (bsSched config env i s).lrEpoch = s.lrEpoch
  ∧ (bsSched config env i s).lr = s.lr
  ∧ (bsSched config env i s).pgCkpt = s.pgCkpt
  ∧ (bsSched config env i s).qrCkpt = s.qrCkpt := by
  unfold bsSched
  split <;> exact ⟨rfl, rfl, rfl, rfl, rfl, rfl, rfl⟩

/-- Inversion for the validation block: it never touches the prior, the
batch size, the loader, the lr state or the saved-best flags; on checkpoint
iterations it appends exactly the respective perplexity metrics to the two
managers and leaves both models in training mode; on other iterations it is
the identity; every call it records is an eval-mode optimizer-free call. -/
theorem valBlock_inv {config : Config} {ce : Nat} {env : Env} {i : Nat}
    {s s2 : LoopState} {valEvs : List CallEvent}
    (h : valBlock config ce env i s = Except.ok (s2, valEvs)) :
    s2.program_prior = s.program_prior
  ∧ s2.batch_size = s.batch_size
  ∧ s2.loaderBatches = s.loaderBatches
  ∧ s2.loaderPos = s.loaderPos
  ∧ s2.lrEpoch = s.lrEpoch
  ∧ s2.lr = s.lr
  ∧ s2.pgCkpt.savedBest = s.pgCkpt.savedBest
  ∧ s2.qrCkpt.savedBest = s.qrCkpt.savedBest
  ∧ (∀ ev ∈ valEvs, ev = valEvent)
  ∧ (i % ce = 0 →
        s2.pgCkpt.steppedMetrics = s.pgCkpt.steppedMetrics
            ++ [env.perplexityOf { s2.program_generator with training := false }]
      ∧ s2.qrCkpt.steppedMetrics = s.qrCkpt.steppedMetrics
            ++ [env.perplexityOf { s2.question_reconstructor with training := false }]
      ∧ s2.program_generator.training = true
      ∧ s2.question_reconstructor.training = true)
  ∧ (¬ i % ce = 0 → s2 = s ∧ valEvs = []) := by
  unfold valBlock at h
  split at h
  · rename_i hc
    rw [valLoop_eval config env.valBatches _ _ rfl rfl] at h
    cases h
    refine ⟨rfl, rfl, rfl, rfl, rfl, rfl, rfl, rfl, ?_, ?_, ?_⟩
    · intro ev hev
      exact List.eq_of_mem_replicate hev
    · intro _
      exact ⟨rfl, rfl, rfl, rfl⟩
    · intro hn
      exact absurd (by simpa using hc) hn
  · rename_i hc
    cases h
    refine ⟨rfl, rfl, rfl, rfl, rfl, rfl, rfl, rfl, by simp, ?_, fun _ => ⟨rfl, rfl⟩⟩
    intro he
    exact absurd (by simp [he]) hc

/-- The validation block never fails: on checkpoint iterations both models
are switched to evaluation mode first, so no `None` optimizer is ever
dereferenced. -/
theorem valBlock_error {config : Config} {ce : Nat} {env : Env} {i : Nat}
    {s : LoopState} {e : RunError}
    (h : valBlock config ce env i s = Except.error e) : False := by
  unfold valBlock at h
  split at h
  · rw [valLoop_eval config env.valBatches _ _ rfl rfl] at h
    cases h
  · cases h

/-- The validation block always returns a result. -/
theorem valBlock_ok (config : Config) (ce : Nat) (env : Env) (i : Nat)
    (s : LoopState) :
    ∃ s2 valEvs, valBlock config ce env i s = Except.ok (s2, valEvs) := by
  unfold valBlock
  split
  · rw [valLoop_eval config env.valBatches _ _ rfl rfl]
    exact ⟨_, _, rfl⟩
  · exact ⟨_, _, rfl⟩

/-- Master inversion for one loop iteration. -/
theorem iterStep_inv {config : Config} {ce : Nat} {env : Env} {opt : Optimizer}
    {i : Nat} {s s' : LoopState} {evs : List CallEvent}
    (h : iterStep config ce env opt i s = Except.ok (s', evs)) :
    s'.program_prior = s.program_prior
  ∧ s'.lrEpoch = s.lrEpoch + 1
  ∧ s'.lr = multiStepLR config (s.lrEpoch + 1)
  ∧ (i ∈ config.bs_steps →
        s'.batch_size = s.batch_size * config.bs_gamma
      ∧ s'.loaderBatches = env.trainBatches (s.batch_size * config.bs_gamma)
      ∧ s'.loaderPos = 0)
  ∧ (i ∉ config.bs_steps →
        s'.batch_size = s.batch_size ∧ s'.loaderBatches = s.loaderBatches)
  ∧ (i % ce = 0 →
        s'.pgCkpt.steppedMetrics = s.pgCkpt.steppedMetrics
            ++ [env.perplexityOf { s'.program_generator with training := false }]
      ∧ s'.qrCkpt.steppedMetrics = s.qrCkpt.steppedMetrics
            ++ [env.perplexityOf { s'.question_reconstructor with training := false }]
      ∧ s'.program_generator.training = true
      ∧ s'.question_reconstructor.training = true)
  ∧ (¬ i % ce = 0 →
        s'.pgCkpt = s.pgCkpt ∧ s'.qrCkpt = s.qrCkpt
      ∧ s'.program_generator.training = s.program_generator.training
      ∧ s'.question_reconstructor.training = s.question_reconstructor.training)
  ∧ s'.pgCkpt.savedBest = s.pgCkpt.savedBest
  ∧ s'.qrCkpt.savedBest = s.qrCkpt.savedBest
  ∧ (∃ rest, evs =
        ({ site := CallSite.train, pgMode := s.program_generator.training,
           qrMode := s.question_reconstructor.training, priorArg := false,
           optArg := true } : CallEvent) :: rest
      ∧ ∀ ev ∈ rest, ev = valEvent) := by
  unfold iterStep at h
  split at h
  · simp at h
  · rename_i s1 trainEv heq1
    split at h
    · simp at h
    · rename_i s2 valEvs heq2
      cases h
      obtain ⟨t1, t2, t3, t4, t5, t6, t7, t8, t9, t10⟩ := trainPart_inv heq1
      obtain ⟨v1, v2, v3, v4, v5, v6, v7, v8, v9, v10, v11⟩ := valBlock_inv heq2
      obtain ⟨f1, f2, f3, f4, f5, f6, f7⟩ := bsSched_frame config env i s1
      refine ⟨?_, ?_, ?_, ?_, ?_, ?_, ?_, ?_, ?_, ?_⟩
      · rw [v1, f1, t1]
      · rw [v5, f4, t6]
      · rw [v6, f5, t7]
      · intro hmem
        refine ⟨?_, ?_, ?_⟩
        · rw [v2, (bsSched_mem hmem).1, t4]
        · rw [v3, (bsSched_mem hmem).2.1, t4]
        · rw [v4, (bsSched_mem hmem).2.2]
      · intro hmem
        have hb := bsSched_not_mem config env i s1 hmem
        constructor
        · rw [v2, hb]
          exact t4
        · rw [v3, hb]
          exact t5
      · intro hce
        obtain ⟨m1, m2, m3, m4⟩ := v10 hce
        refine ⟨?_, ?_, m3, m4⟩
        · rw [m1, f6, t8]
        · rw [m2, f7, t9]
      · intro hce
        obtain ⟨hs2, -⟩ := v11 hce
        refine ⟨?_, ?_, ?_, ?_⟩
        · rw [hs2, f6, t8]
        · rw [hs2, f7, t9]
        · rw [hs2, f2]
          exact t2
        · rw [hs2, f3]
          exact t3
      · rw [v7, f6, t8]
      · rw [v8, f7, t9]
      · refine ⟨valEvs, ?_, v9⟩
        rw [t10]

/-- An error of one loop iteration is always `StopIteration`. -/
theorem iterStep_error {config : Config} {ce : Nat} {env : Env} {opt : Optimizer}
    {i : Nat} {s : LoopState} {e : RunError}
    (h : iterStep config ce env opt i s = Except.error e) :
    e = RunError.stopIteration := by
  unfold iterStep at h
  split at h
  · rename_i heq
    injection h with h
    exact h ▸ trainPart_error heq
  · split at h
    · rename_i heq2
      exact (valBlock_error heq2).elim
    · simp at h

/-- One loop iteration succeeds whenever the loader is non-empty. -/
theorem iterStep_ok_of_nonempty (config : Config) (ce : Nat) (env : Env)
    (opt : Optimizer) (i : Nat) (s : LoopState)
    (hload : s.loaderBatches ≠ []) :
    ∃ s' evs, iterStep config ce env opt i s = Except.ok (s', evs) := by
  obtain ⟨s1, ev, h1⟩ := trainPart_ok config opt s hload
  obtain ⟨s2, evs2, h2⟩ := valBlock_ok config ce env i (bsSched config env i s1)
  simp only [iterStep, h1, h2]
  exact ⟨_, _, rfl⟩

/-- Master inversion for a successful run of iterations `i .. i+n-1`:
the prior is untouched; the lr scheduler is stepped exactly once per
iteration and the lr invariant is preserved; when the run starts with both
models in training mode, it ends with both in training mode and every
recorded call is either a train-site call with both modes on and an
optimizer, or a val-site call with both modes off and no optimizer, and no
call ever passes a prior; the saved-best flags are untouched. -/
theorem runFrom_inv {config : Config} {ce : Nat} {env : Env} {opt : Optimizer} :
    ∀ (n i : Nat) (s s' : LoopState) (evs : List CallEvent),
      runFrom config ce env opt i n s = Except.ok (s', evs) →
      s'.program_prior = s.program_prior
    ∧ s'.lrEpoch = s.lrEpoch + n
    ∧ (s.lr = multiStepLR config s.lrEpoch → s'.lr = multiStepLR config s'.lrEpoch)
    ∧ (s.program_generator.training = true →
       s.question_reconstructor.training = true →
         s'.program_generator.training = true
       ∧ s'.question_reconstructor.training = true
       ∧ ∀ ev ∈ evs,
           ((ev.site = CallSite.train →
               ev.pgMode = true ∧ ev.qrMode = true ∧ ev.optArg = true)
          ∧ (ev.site = CallSite.val →
               ev.pgMode = false ∧ ev.qrMode = false ∧ ev.optArg = false)
          ∧ ev.priorArg = false))
    ∧ s'.pgCkpt.savedBest = s.pgCkpt.savedBest
    ∧ s'.qrCkpt.savedBest = s.qrCkpt.savedBest := by
  intro n
  induction n with
  | zero =>
    intro i s s' evs h
    cases h
    refine ⟨rfl, rfl, fun hl => hl, fun h1 h2 => ⟨h1, h2, by simp⟩, rfl, rfl⟩
  | succ n ih =>
    intro i s s' evs h
    unfold runFrom at h
    split at h
    · simp at h
    · rename_i s1 evs1 heq1
      split at h
      · simp at h
      · rename_i s2 evs2 heq2
        cases h
        obtain ⟨p1, p2, p3, pmem, pnot, pval, pnval, psb1, psb2, rest, hevs, hrest⟩ :=
          iterStep_inv heq1
        obtain ⟨q1, q2, q3, q4, q5, q6⟩ := ih (i + 1) s1 _ evs2 heq2
        refine ⟨q1.trans p1, ?_, ?_, ?_, q5.trans psb1, q6.trans psb2⟩
        · rw [q2, p2]
          omega
        · intro hl
          exact q3 (by rw [p3, p2])
        · intro h1 h2
          have hm1 : s1.program_generator.training = true := by
            by_cases hc : i % ce = 0
            · exact (pval hc).2.2.1
            · rw [(pnval hc).2.2.1]
              exact h1
          have hm2 : s1.question_reconstructor.training = true := by
            by_cases hc : i % ce = 0
            · exact (pval hc).2.2.2
            · rw [(pnval hc).2.2.2]
              exact h2
          obtain ⟨r1, r2, r3⟩ := q4 hm1 hm2
          refine ⟨r1, r2, ?_⟩
          intro ev hev
          rcases List.mem_append.1 hev with hin | hin
          · rw [hevs] at hin
            rcases List.mem_cons.1 hin with hhd | htl
            · subst hhd
              refine ⟨fun _ => ⟨h1, h2, rfl⟩, fun hv => ?_, rfl⟩
              simp at hv
            · rw [hrest ev htl]
              refine ⟨fun ht => ?_, fun _ => ⟨rfl, rfl, rfl⟩, rfl⟩
              simp [valEvent] at ht
          · exact r3 ev hin

/-- An error of a run of iterations is always `StopIteration`. -/
theorem runFrom_error {config : Config} {ce : Nat} {env : Env} {opt : Optimizer} :
    ∀ (n i : Nat) (s : LoopState) (e : RunError),
      runFrom config ce env opt i n s = Except.error e →
      e = RunError.stopIteration := by
  intro n
  induction n with
  | zero =>
    intro i s e h
    simp [runFrom] at h
  | succ n ih =>
    intro i s e h
    unfold runFrom at h
    split at h
    · rename_i heq
      injection h with h
      exact h ▸ iterStep_error heq
    · split at h
      · rename_i heq2
        injection h with h
        exact h ▸ ih (i + 1) _ _ heq2
      · simp at h

/-- A run of iterations succeeds whenever every re-initialization of the
loader is non-empty and the current loader is non-empty. -/
theorem runFrom_ok (config : Config) (ce : Nat) (env : Env) (opt : Optimizer)
    (htrain : ∀ bs, env.trainBatches bs ≠ []) :
    ∀ (n i : Nat) (s : LoopState), s.loaderBatches ≠ [] →
      ∃ s' evs, runFrom config ce env opt i n s = Except.ok (s', evs) := by
  intro n
  induction n with
  | zero =>
    intro i s _
    exact ⟨s, [], rfl⟩
  | succ n ih =>
    intro i s hload
    obtain ⟨s1, evs1, h1⟩ :=
      iterStep_ok_of_nonempty config ce env opt i s hload
    obtain ⟨-, -, -, pmem, pnot, -, -, -, -, -⟩ := iterStep_inv h1
    have hload1 : s1.loaderBatches ≠ [] := by
      by_cases hm : i ∈ config.bs_steps
      · rw [(pmem hm).2.1]
        exact htrain _
      · rw [(pnot hm).2]
        exact hload
    obtain ⟨s2, evs2, h2⟩ := ih (i + 1) s1 hload1
    refine ⟨s2, evs1 ++ evs2, ?_⟩
    simp only [runFrom, h1, h2]

/-! ### Claims C4, C5, C7, C8, C9, C10 -/

/-- Claim C4: at every iteration divisible by `checkpoint_every`, both
checkpoint managers are stepped with the respective model's validation
perplexity metric (and not stepped at any other iteration), and after the
final iteration the best checkpoint of each model is saved. -/
theorem C4_checkpoint_by_perplexity :
    (∀ (config : Config) (ce : Nat) (env : Env) (opt : Optimizer) (i : Nat)
       (s s' : LoopState) (evs : List CallEvent),
       iterStep config ce env opt i s = Except.ok (s', evs) →
       (i % ce = 0 →
           s'.pgCkpt.steppedMetrics = s.pgCkpt.steppedMetrics
               ++ [env.perplexityOf { s'.program_generator with training := false }]
         ∧ s'.qrCkpt.steppedMetrics = s.qrCkpt.steppedMetrics
               ++ [env.perplexityOf { s'.question_reconstructor with training := false }])
     ∧ (¬ i % ce = 0 → s'.pgCkpt = s.pgCkpt ∧ s'.qrCkpt = s.qrCkpt))
  ∧ (∀ (config : Config) (ce : Nat) (env : Env) (s : LoopState)
       (evs : List CallEvent),
       runMain config ce env = Except.ok (s, evs) →
       s.pgCkpt.savedBest = true ∧ s.qrCkpt.savedBest = true) := by
  constructor
  · intro config ce env opt i s s' evs h
    obtain ⟨-, -, -, -, -, pval, pnval, -, -, -⟩ := iterStep_inv h
    exact ⟨fun hc => ⟨(pval hc).1, (pval hc).2.1⟩,
           fun hc => ⟨(pnval hc).1, (pnval hc).2.1⟩⟩
  · intro config ce env s evs h
    unfold runMain at h
    split at h
    · simp at h
    · cases h
      exact ⟨rfl, rfl⟩

/-- Witness for C4: the concrete checkpoint iteration steps the generator
manager with the validation perplexity, a non-checkpoint iteration leaves
the manager untouched, and the finished run has saved both best
checkpoints. -/
theorem C4_witness :
    (iterStateW.pgCkpt.steppedMetrics
        = (setup cfgX envW).pgCkpt.steppedMetrics
          ++ [envW.perplexityOf { iterStateW.program_generator with training := false }]
     ∧ iterStateW2.pgCkpt = (setup cfgX envW).pgCkpt)
  ∧ stateW.pgCkpt.savedBest = true ∧ stateW.qrCkpt.savedBest = true := by
  refine ⟨⟨?_, ?_⟩, ?_, ?_⟩
  · exact ((C4_checkpoint_by_perplexity.1 cfgX 1 envW optW 1 (setup cfgX envW)
      iterStateW iterEventsW rfl).1 (by decide)).1
  · exact ((C4_checkpoint_by_perplexity.1 cfgX 2 envW optW 1 (setup cfgX envW)
      iterStateW2 iterEventsW2 rfl).2 (by decide)).1
  · exact (C4_checkpoint_by_perplexity.2 cfgX 1 envW stateW eventsW rfl).1
  · exact (C4_checkpoint_by_perplexity.2 cfgX 1 envW stateW eventsW rfl).2

/-- Claim C5: the training loop draws a batch at every iteration from the
cyclic loader (the whole run succeeds whenever the dataset is non-empty),
and exactly at the `bs_steps` milestones the batch size is multiplied by
`bs_gamma` and the cyclic loader re-initialized; elsewhere both are
unchanged. -/
theorem C5_cyclic_loader_bs_schedule :
    (∀ (config : Config) (ce : Nat) (env : Env),
       (∀ bs, env.trainBatches bs ≠ []) →
       ∃ r, runMain config ce env = Except.ok r)
  ∧ (∀ (config : Config) (ce : Nat) (env : Env) (opt : Optimizer) (i : Nat)
       (s s' : LoopState) (evs : List CallEvent),
       iterStep config ce env opt i s = Except.ok (s', evs) →
       (i ∈ config.bs_steps →
           s'.batch_size = s.batch_size * config.bs_gamma
         ∧ s'.loaderBatches = env.trainBatches (s.batch_size * config.bs_gamma)
         ∧ s'.loaderPos = 0)
     ∧ (i ∉ config.bs_steps →
           s'.batch_size = s.batch_size ∧ s'.loaderBatches = s.loaderBatches)) := by
  constructor
  · intro config ce env htrain
    obtain ⟨s', evs, hok⟩ :=
      runFrom_ok config ce env { step := env.optStep }
        htrain config.num_iterations 1 (setup config env)
        (htrain config.initial_bs)
    have hrm : runMain config ce env
        = Except.ok ({ s' with
            pgCkpt := { s'.pgCkpt with savedBest := true },
            qrCkpt := { s'.qrCkpt with savedBest := true } }, evs) := by
      unfold runMain
      rw [hok]
    exact ⟨_, hrm⟩
  · intro config ce env opt i s s' evs h
    obtain ⟨-, -, -, pmem, pnot, -, -, -, -, -⟩ := iterStep_inv h
    exact ⟨pmem, pnot⟩

/-- Witness for C5: the concrete run succeeds, the milestone iteration
doubles the batch size and re-initializes the loader, the non-milestone
iteration changes neither. -/
theorem C5_witness :
    (∃ r, runMain cfgX 1 envW = Except.ok r)
  ∧ (iterStateWB.batch_size = (setup cfgB envW).batch_size * cfgB.bs_gamma
   ∧ iterStateWB.loaderBatches
       = envW.trainBatches ((setup cfgB envW).batch_size * cfgB.bs_gamma)
   ∧ iterStateWB.loaderPos = 0)
  ∧ (iterStateW2.batch_size = (setup cfgX envW).batch_size
   ∧ iterStateW2.loaderBatches = (setup cfgX envW).loaderBatches) := by
  refine ⟨?_, ?_, ?_⟩
  · exact C5_cyclic_loader_bs_schedule.1 cfgX 1 envW (fun bs => by simp [envW])
  · exact (C5_cyclic_loader_bs_schedule.2 cfgB 2 envW optW 1 (setup cfgB envW)
      iterStateWB iterEventsWB rfl).1 (by decide)
  · exact (C5_cyclic_loader_bs_schedule.2 cfgX 2 envW optW 1 (setup cfgX envW)
      iterStateW2 iterEventsW2 rfl).2 (by decide)

/-- Claim C7: the prior is frozen for the whole run — no loop iteration ever
changes it (its parameters are not among those the optimizer updates), and
at the end of any successful run its parameters are still exactly the loaded
checkpoint and it is still in evaluation mode. -/
theorem C7_prior_frozen :
    (∀ (config : Config) (ce : Nat) (env : Env) (opt : Optimizer) (i : Nat)
       (s s' : LoopState) (evs : List CallEvent),
       iterStep config ce env opt i s = Except.ok (s', evs) →
       s'.program_prior = s.program_prior)
  ∧ (∀ (config : Config) (ce : Nat) (env : Env) (s : LoopState)
       (evs : List CallEvent),
       runMain config ce env = Except.ok (s, evs) →
       s.program_prior.params = config.prior_checkpoint
     ∧ s.program_prior.training = false) := by
  constructor
  · intro config ce env opt i s s' evs h
    exact (iterStep_inv h).1
  · intro config ce env s evs h
    unfold runMain at h
    split at h
    · simp at h
    · rename_i sF evsF heq
      cases h
      have hp := (runFrom_inv config.num_iterations 1 (setup config env)
        sF evs heq).1
      constructor
      · show sF.program_prior.params = config.prior_checkpoint
        rw [hp]
        rfl
      · show sF.program_prior.training = false
        rw [hp]
        rfl

/-- Witness for C7 at the concrete run. -/
theorem C7_witness :
    iterStateW.program_prior = (setup cfgX envW).program_prior
  ∧ stateW.program_prior.params = cfgX.prior_checkpoint
  ∧ stateW.program_prior.training = false :=
  ⟨C7_prior_frozen.1 cfgX 1 envW optW 1 (setup cfgX envW) iterStateW iterEventsW rfl,
   (C7_prior_frozen.2 cfgX 1 envW stateW eventsW rfl).1,
   (C7_prior_frozen.2 cfgX 1 envW stateW eventsW rfl).2⟩

/-- Claim C8: the lr scheduler is stepped exactly once per training
iteration, and after the whole run the learning rate equals `initial_lr`
times `lr_gamma` raised to the number of milestones of `lr_steps` already
passed. -/
theorem C8_lr_schedule :
    (∀ (config : Config) (ce : Nat) (env : Env) (opt : Optimizer) (i : Nat)
       (s s' : LoopState) (evs : List CallEvent),
       iterStep config ce env opt i s = Except.ok (s', evs) →
       s'.lrEpoch = s.lrEpoch + 1)
  ∧ (∀ (config : Config) (ce : Nat) (env : Env) (s : LoopState)
       (evs : List CallEvent),
       runMain config ce env = Except.ok (s, evs) →
       s.lrEpoch = config.num_iterations
     ∧ s.lr = config.initial_lr
         * config.lr_gamma
             ^ (config.lr_steps.countP (fun m => m ≤ config.num_iterations))) := by
  constructor
  · intro config ce env opt i s s' evs h
    exact (iterStep_inv h).2.1
  · intro config ce env s evs h
    unfold runMain at h
    split at h
    · simp at h
    · rename_i sF evsF heq
      cases h
      obtain ⟨-, he, hl, -, -, -⟩ :=
        runFrom_inv config.num_iterations 1 (setup config env) sF evs heq
      have hepoch : sF.lrEpoch = config.num_iterations := by
        rw [he]
        show 0 + config.num_iterations = config.num_iterations
        omega
      constructor
      · exact hepoch
      · show sF.lr = _
        rw [hl rfl, hepoch]
        rfl

/-- Witness for C8 at the concrete run (one iteration, milestone at 1, so
the lr is halved). -/
theorem C8_witness :
    iterStateW.lrEpoch = (setup cfgX envW).lrEpoch + 1
  ∧ stateW.lrEpoch = cfgX.num_iterations
  ∧ stateW.lr = cfgX.initial_lr
      * cfgX.lr_gamma ^ (cfgX.lr_steps.countP (fun m => m ≤ cfgX.num_iterations)) :=
  ⟨C8_lr_schedule.1 cfgX 1 envW optW 1 (setup cfgX envW) iterStateW iterEventsW rfl,
   (C8_lr_schedule.2 cfgX 1 envW stateW eventsW rfl).1,
   (C8_lr_schedule.2 cfgX 1 envW stateW eventsW rfl).2⟩

/-- Claim C9: no run ever dereferences the `None` optimizer — every branch
of `do_iteration` that touches the optimizer runs only in training mode, and
the optimizer-free validation calls all happen in evaluation mode, so the
only error a run can raise is `StopIteration` of an empty loader. -/
theorem C9_none_optimizer_never_dereferenced :
    ∀ (config : Config) (ce : Nat) (env : Env),
      raisedNoneOptimizer (runMain config ce env) = false := by
  intro config ce env
  unfold runMain
  split
  · rename_i e heq
    rw [runFrom_error config.num_iterations 1 (setup config env) e heq]
    rfl
  · rfl

/-- Claim C10: the generator and the reconstructor are always in the same
mode — every training call runs with both in training mode, every validation
call with both in evaluation mode, and a finished run leaves both back in
training mode. -/
theorem C10_modes_synchronized :
    ∀ (config : Config) (ce : Nat) (env : Env) (s : LoopState)
      (evs : List CallEvent),
      runMain config ce env = Except.ok (s, evs) →
      (∀ ev ∈ evs,
          (ev.site = CallSite.train → ev.pgMode = true ∧ ev.qrMode = true)
        ∧ (ev.site = CallSite.val → ev.pgMode = false ∧ ev.qrMode = false))
    ∧ s.program_generator.training = true
    ∧ s.question_reconstructor.training = true := by
  intro config ce env s evs h
  unfold runMain at h
  split at h
  · simp at h
  · rename_i sF evsF heq
    cases h
    obtain ⟨-, -, -, hmodes, -, -⟩ :=
      runFrom_inv config.num_iterations 1 (setup config env) sF evs heq
    obtain ⟨r1, r2, r3⟩ := hmodes rfl rfl
    refine ⟨?_, r1, r2⟩
    intro ev hev
    obtain ⟨a, b, -⟩ := r3 ev hev
    exact ⟨fun ht => ⟨(a ht).1, (a ht).2.1⟩, fun hv => ⟨(b hv).1, (b hv).2.1⟩⟩

/-- Witness for C10 at the concrete run. -/
theorem C10_witness :
    stateW.program_generator.training = true
  ∧ stateW.question_reconstructor.training = true :=
  ⟨(C10_modes_synchronized cfgX 1 envW stateW eventsW rfl).2.1,
   (C10_modes_synchronized cfgX 1 envW stateW eventsW rfl).2.2⟩

end QuestionCoding
